import Mathlib

/-!
Shallow embedding of the `turbo-static` crate's core:

* `visitor.rs` — the `CallingStyle` multiplicity lattice with its bitset-based
  join (`impl Add for CallingStyle`), and the `CallingStyleVisitor` stack-based
  source-tree traversal;
* `call_resolver.rs` — `CallResolver::resolve`, the two-phase (prepare /
  incoming-calls) protocol exchange with the code-intelligence server, with its
  retry loop and write-through link cache.

Rust machine details are embedded as follows: the `fjall` partition becomes an
association list keyed by the identifier's canonical string (bincode
serialisation round-trips, so entries store the reference list directly);
`unwrap` panics become an explicit `panicked` outcome; the unbounded `loop` in
the prepare phase is given explicit fuel, with `outOfFuel` marking a run that
is still retrying after that many iterations.
-/

/- ---------------------------------------------------------------- -/
/- CallingStyle (visitor.rs, lines 77-122)                          -/
/- ---------------------------------------------------------------- -/

/-- The four surfaced multiplicity values (`enum CallingStyle`). -/
inductive CallingStyle where
  | once
  | zeroOrOnce
  | zeroOrMore
  | oneOrMore
deriving DecidableEq, Repr

/-- Bit patterns from `CallingStyle::bitset` (visitor.rs lines 89-96):
`Once => 0b0010`, `ZeroOrOnce => 0b011`, `ZeroOrMore => 0b0111`,
`OneOrMore => 0b0110`. -/
def CallingStyle.bitset : CallingStyle → Nat
  | .once => 0b0010
  | .zeroOrOnce => 0b011
  | .zeroOrMore => 0b0111
  | .oneOrMore => 0b0110

/-- The decode arm of `impl Add for CallingStyle` (visitor.rs lines 114-120):
maps an or-ed bit pattern back to a `CallingStyle`; the wildcard arm is the
source's `unreachable!()` panic, embedded as `none`. -/
def CallingStyle.ofBitset : Nat → Option CallingStyle
  | 0b0010 => some .once
  | 0b011 => some .zeroOrOnce
  | 0b0111 => some .zeroOrMore
  | 0b0110 => some .oneOrMore
  | _ => none

/-- `impl Add for CallingStyle` (visitor.rs lines 99-122): bitwise OR of the
two bitsets, decoded back; `none` is the `unreachable!()` panic. -/
def CallingStyle.add? (a b : CallingStyle) : Option CallingStyle :=
  CallingStyle.ofBitset (a.bitset ||| b.bitset)

/- ---------------------------------------------------------------- -/
/- CallingStyleVisitor (visitor.rs, lines 124-211)                  -/
/- ---------------------------------------------------------------- -/

/-- The context markers pushed on the visitor's `VecDeque`
(`enum CallingStyleVisitorState`, visitor.rs lines 152-158). -/
inductive CallingStyleVisitorState where
  | block
  | loop
  | ifBr
  | closure
deriving DecidableEq, Repr

/-- The per-marker contribution used inside `CallingStyleVisitor::result`
(visitor.rs lines 142-147): Block ↦ Once, Loop ↦ ZeroOrMore, If ↦ ZeroOrOnce,
Closure ↦ ZeroOrMore. -/
def CallingStyleVisitorState.style : CallingStyleVisitorState → CallingStyle
  | .block => .once
  | .loop => .zeroOrMore
  | .ifBr => .zeroOrOnce
  | .closure => .zeroOrMore

/-- `CallingStyleVisitor::result` (visitor.rs lines 139-149): map the state
deque front-to-back through the marker table and `reduce` with `+`. An empty
deque yields `none` (Rust's `reduce` on an empty iterator); a `+` that hits
the `unreachable!()` arm also yields `none`. -/
def visitorResult (st : List CallingStyleVisitorState) : Option CallingStyle :=
  match st.map CallingStyleVisitorState.style with
  | [] => none
  | a :: rest => (List.foldlM CallingStyle.add? a rest : Option CallingStyle)

/-- Embedding of the `syn` expression subtree shapes the visitor reacts to.
`call` is `ExprCall` with an `Expr::Path` callee; since the overridden
`visit_expr_call` (visitor.rs lines 201-210) only logs and never recurses into
the callee or the arguments, those subtrees are not represented. `ifE` is an
`ExprIf` with no `else`, `ifElseE` one with an `else` branch. `seq` chains the
statements of a block in source order; `unit` is any leaf expression. -/
inductive RExpr where
  | path (name : String)
  | call (callee : String)
  | loopE (body : RExpr)
  | forE (body : RExpr)
  | ifE (cond : RExpr) (thenB : RExpr)
  | ifElseE (cond : RExpr) (thenB : RExpr) (elseB : RExpr)
  | closureE (body : RExpr)
  | seq (first : RExpr) (second : RExpr)
  | unit
deriving DecidableEq, Repr

/-- A top-level declaration the visitor dispatches on: a free function
(`visit_item_fn`) or a method (`visit_impl_item_fn`), with its name and body. -/
inductive RItem where
  | itemFn (name : String) (body : RExpr)
  | implItemFn (name : String) (body : RExpr)
deriving DecidableEq, Repr

/-- State transformer of the expression-level callbacks of
`impl Visit for CallingStyleVisitor` (visitor.rs lines 177-210). `push_back`
is appending at the end of the deque, `pop_back` is `dropLast`; loops, `if`s
and closures push their marker, visit their children in `syn` order, and pop;
`visit_expr_call` changes no state and does not recurse. -/
def visitExpr (ref : String) (st : List CallingStyleVisitorState) :
    RExpr → List CallingStyleVisitorState
  | .path _ => st
  | .call _ => st
  | .loopE body =>
      (visitExpr ref (st ++ [.loop]) body).dropLast
  | .forE body =>
      (visitExpr ref (st ++ [.loop]) body).dropLast
  | .ifE cond thenB =>
      (visitExpr ref (visitExpr ref (st ++ [.ifBr]) cond) thenB).dropLast
  | .ifElseE cond thenB elseB =>
      (visitExpr ref
        (visitExpr ref (visitExpr ref (st ++ [.ifBr]) cond) thenB)
        elseB).dropLast
  | .closureE body =>
      (visitExpr ref (st ++ [.closure]) body).dropLast
  | .seq a b => visitExpr ref (visitExpr ref st a) b
  | .unit => st

/-- Modelled from the spec: `Identifier::equals_ident(_, true)` (the matching
call in visitor.rs lines 162 and 170) lives in the crate root, which is not
part of the sources here; per the spec's matching policy it compares by name
equality only, ignoring the source range. -/
def equalsIdent (ref name : String) : Prop := ref = name

instance (ref name : String) : Decidable (equalsIdent ref name) :=
  inferInstanceAs (Decidable (ref = name))

/-- `visit_item_fn` / `visit_impl_item_fn` of `CallingStyleVisitor`
(visitor.rs lines 161-175): when the declaration's name matches the
reference's identifier, push `Block`, traverse the body, pop; a non-matching
declaration is not traversed at all. -/
def visitItem (ref : String) (st : List CallingStyleVisitorState) :
    RItem → List CallingStyleVisitorState
  | .itemFn name body =>
      if equalsIdent ref name then (visitExpr ref (st ++ [.block]) body).dropLast
      else st
  | .implItemFn name body =>
      if equalsIdent ref name then (visitExpr ref (st ++ [.block]) body).dropLast
      else st

/-- Traversal of a whole file: the items in source order. -/
def visitItems (ref : String) (st : List CallingStyleVisitorState)
    (items : List RItem) : List CallingStyleVisitorState :=
  items.foldl (visitItem ref) st

/-- Running the classifier as `main` does: fresh empty state, full traversal,
then `result()`. -/
def classify (ref : String) (items : List RItem) : Option CallingStyle :=
  visitorResult (visitItems ref [] items)

/- ---------------------------------------------------------------- -/
/- CallResolver (call_resolver.rs)                                  -/
/- ---------------------------------------------------------------- -/

/-- Modelled from the spec: `Identifier` lives in the crate root, not in the
sources here; per the spec it is a symbol name plus its defining file path and
start position. -/
structure Identifier where
  name : String
  path : String
  line : Nat
  col : Nat
deriving DecidableEq, Repr

/-- Modelled from the spec: the canonical string form used as the cache key
(`ident.to_string()` in call_resolver.rs lines 37 and 122), e.g.
`path#name@line:col`; its exact shape is irrelevant to the resolver, which
only ever keys the cache through this one function. -/
def Identifier.canonical (i : Identifier) : String :=
  i.path ++ "#" ++ i.name ++ "@" ++ toString i.line ++ ":" ++ toString i.col

/-- Modelled from the spec: `IdentifierReference` (crate root) is a caller
`Identifier` plus the call-site ranges within it reaching the target. -/
structure IdentifierReference where
  identifier : Identifier
  references : List (Nat × Nat)
deriving DecidableEq, Repr

/-- An `lsp_types::CallHierarchyIncomingCall`: the caller's identity plus the
call-site ranges. -/
structure IncomingCall where
  name : String
  path : String
  line : Nat
  col : Nat
  fromRanges : List (Nat × Nat)
deriving DecidableEq, Repr

/-- The `i.into()` conversion (call_resolver.rs line 114) from an incoming
call record to an `IdentifierReference`. -/
def IncomingCall.toRef (c : IncomingCall) : IdentifierReference :=
  ⟨⟨c.name, c.path, c.line, c.col⟩, c.fromRanges⟩

/-- The elements of the prepare response's JSON array are broken out of the
loop but never used (`_response`, call_resolver.rs line 45), so they carry no
data here. -/
abbrev PrepItem := Unit

/-- Outcome of `r.as_array()` on a prepare response's `result` value: either a
JSON array or some other JSON value. -/
inductive PrepValue where
  | arr (items : List PrepItem)
  | nonArray
deriving DecidableEq, Repr

/-- Server response to one `textDocument/prepareCallHierarchy` request. The
resolver only inspects `response.result` (call_resolver.rs line 64); `none`
covers a response carrying an error, or no result at all. -/
structure PrepareResponse where
  result : Option PrepValue
deriving DecidableEq, Repr

/-- Payload of a `callHierarchy/incomingCalls` response's `result`: either a
well-formed list of incoming-call records, or JSON that fails to deserialize
into `Vec<CallHierarchyIncomingCall>` (call_resolver.rs lines 108-109). -/
inductive IncomingValue where
  | ok (calls : List IncomingCall)
  | malformed
deriving DecidableEq, Repr

/-- Server response to the `callHierarchy/incomingCalls` request:
`response.error` and `response.result` as inspected in call_resolver.rs
lines 104-109. -/
structure IncomingResponse where
  error : Option String
  result : Option IncomingValue
deriving DecidableEq, Repr

/-- A server stub: its answer to the n-th prepare request (0-based), and its
answer to the single incoming-calls request the resolver can issue. -/
structure ServerStub where
  prepare : Nat → PrepareResponse
  incoming : IncomingResponse

/-- The link cache partition (`fjall` handle): an association list from the
identifier's canonical string to the stored reference list. `bincode`
serialisation round-trips, so values are kept unserialised. -/
abbrev Cache := List (String × List IdentifierReference)

/-- `handle.get` (call_resolver.rs line 37): exact lookup by canonical key. -/
def Cache.lookup : Cache → String → Option (List IdentifierReference)
  | [], _ => none
  | (k, v) :: rest, key => if k = key then some v else Cache.lookup rest key

/-- `handle.insert` (call_resolver.rs line 122): write under the canonical
key; a newer entry shadows any older one. -/
def Cache.insert (c : Cache) (key : String) (v : List IdentifierReference) :
    Cache :=
  (key, v) :: c

/-- The prepare-phase retry loop (call_resolver.rs lines 44-79), with explicit
fuel bounding how many iterations we unfold. Each iteration sends one prepare
request; when the `result` is a non-empty array the loop breaks with it; when
it is an empty array `count` is incremented; any other response leaves `count`
unchanged. After that, `count > 5` breaks with the empty list (the "isolated
task" case). Returns the broken-out array together with the number of prepare
requests issued, or `none` when the loop is still running after `fuel`
iterations. -/
def prepareLoop (prep : Nat → PrepareResponse) (count attempt fuel : Nat) :
    Option (List PrepItem × Nat) :=
  match fuel with
  | 0 => none
  | fuel + 1 =>
    match (prep attempt).result with
    | some (.arr value) =>
      if value ≠ [] then some (value, attempt + 1)
      else if count + 1 > 5 then some ([], attempt + 1)
      else prepareLoop prep (count + 1) (attempt + 1) fuel
    | _ =>
      if count > 5 then some ([], attempt + 1)
      else prepareLoop prep count (attempt + 1) fuel

/-- Outcome of one `CallResolver::resolve` run. `ok` carries the returned
reference list, the cache afterwards, the number of prepare requests issued,
and whether the incoming-calls request was issued; `panicked` is an `unwrap`
failure (the run aborts, cache as at the abort); `outOfFuel` means the prepare
retry loop was still running after the given fuel. -/
inductive ResolveResult where
  | ok (links : List IdentifierReference) (cache : Cache)
      (prepareAttempts : Nat) (incomingIssued : Bool)
  | panicked (cache : Cache)
  | outOfFuel
deriving DecidableEq, Repr

/-- Whether the run issued a `callHierarchy/incomingCalls` request. -/
def ResolveResult.issuedIncoming : ResolveResult → Bool
  | .ok _ _ _ issued => issued
  | _ => false

/-- `CallResolver::resolve` (call_resolver.rs lines 36-124). Cache hit returns
the deserialized entry with no server interaction. Otherwise the prepare
retry loop runs; whatever it breaks with, the incoming-calls request is then
issued unconditionally (its `item` is rebuilt from the identifier, and the
loop's `_response` is never read). A response error downgrades to zero links;
otherwise `response.result.unwrap()` panics on a missing result and the
`bincode` deserialize `unwrap` panics on a malformed one. The resulting list
is inserted under the canonical key before being returned. -/
def resolve (cache : Cache) (ident : Identifier) (stub : ServerStub)
    (fuel : Nat) : ResolveResult :=
  match Cache.lookup cache ident.canonical with
  | some refs => .ok refs cache 0 false
  | none =>
    match prepareLoop stub.prepare 0 0 fuel with
    | none => .outOfFuel
    | some (_value, attempts) =>
      match stub.incoming.error with
      | some _ =>
        .ok [] (Cache.insert cache ident.canonical []) attempts true
      | none =>
        match stub.incoming.result with
        | none => .panicked cache
        | some .malformed => .panicked cache
        | some (.ok calls) =>
          let links := calls.map IncomingCall.toRef
          .ok links (Cache.insert cache ident.canonical links) attempts true

/- ---------------------------------------------------------------- -/
/- Helper lemmas                                                    -/
/- ---------------------------------------------------------------- -/

theorem dropLast_append_singleton {α : Type} (l : List α) (a : α) :
    (l ++ [a]).dropLast = l := by
  simp

theorem visitExpr_id (ref : String) (e : RExpr) :
    ∀ st, visitExpr ref st e = st := by
  induction e with
  | path n => intro st; rfl
  | call c => intro st; rfl
  | loopE body ih =>
    intro st
    simp [visitExpr, ih, dropLast_append_singleton]
  | forE body ih =>
    intro st
    simp [visitExpr, ih, dropLast_append_singleton]
  | ifE cond thenB ihc iht =>
    intro st
    simp [visitExpr, ihc, iht, dropLast_append_singleton]
  | ifElseE cond thenB elseB ihc iht ihe =>
    intro st
    simp [visitExpr, ihc, iht, ihe, dropLast_append_singleton]
  | closureE body ih =>
    intro st
    simp [visitExpr, ih, dropLast_append_singleton]
  | seq a b iha ihb =>
    intro st
    simp [visitExpr, iha, ihb]
  | unit => intro st; rfl

theorem visitItem_id (ref : String) (i : RItem) (st : List CallingStyleVisitorState) :
    visitItem ref st i = st := by
  cases i with
  | itemFn name body =>
    simp [visitItem, visitExpr_id, dropLast_append_singleton]
  | implItemFn name body =>
    simp [visitItem, visitExpr_id, dropLast_append_singleton]

theorem visitItems_id (ref : String) (items : List RItem) :
    ∀ st, visitItems ref st items = st := by
  induction items with
  | nil => intro st; rfl
  | cons i rest ih =>
    intro st
    simp [visitItems] at ih ⊢
    rw [visitItem_id, ih]

/- ---------------------------------------------------------------- -/
/- Claims about the CallingStyle join (C2, C8)                      -/
/- ---------------------------------------------------------------- -/

/-- Claim C2 counterexample: the spec's table says `Once ⋈ ZeroOrMore =
OneOrMore`, but the code's join is bitwise OR, and
`0b0010 ||| 0b0111 = 0b0111`, which decodes to `ZeroOrMore`. -/
theorem once_join_zeroOrMore_is_not_oneOrMore :
    CallingStyle.add? CallingStyle.once CallingStyle.zeroOrMore =
      some CallingStyle.zeroOrMore ∧
    CallingStyle.add? CallingStyle.once CallingStyle.zeroOrMore ≠
      some CallingStyle.oneOrMore := by
  decide

/-- Claim C2 (amended): `Once ⋈ ZeroOrMore = ZeroOrMore` (not `OneOrMore`);
`ZeroOrOnce ⋈ Once = ZeroOrOnce`; `ZeroOrMore ⋈ ZeroOrMore = ZeroOrMore`; and
joining the three contributions `Once` (Block), `ZeroOrOnce` (If),
`ZeroOrMore` (Loop) in any of the six orders gives `ZeroOrMore`. -/
theorem callingStyle_join_table :
    CallingStyle.add? CallingStyle.once CallingStyle.zeroOrMore =
      some CallingStyle.zeroOrMore ∧
    CallingStyle.add? CallingStyle.zeroOrOnce CallingStyle.once =
      some CallingStyle.zeroOrOnce ∧
    CallingStyle.add? CallingStyle.zeroOrMore CallingStyle.zeroOrMore =
      some CallingStyle.zeroOrMore ∧
    ((CallingStyle.add? CallingStyle.once CallingStyle.zeroOrOnce).bind
        (fun x => CallingStyle.add? x CallingStyle.zeroOrMore) =
      some CallingStyle.zeroOrMore ∧
    (CallingStyle.add? CallingStyle.once CallingStyle.zeroOrMore).bind
        (fun x => CallingStyle.add? x CallingStyle.zeroOrOnce) =
      some CallingStyle.zeroOrMore ∧
    (CallingStyle.add? CallingStyle.zeroOrOnce CallingStyle.once).bind
        (fun x => CallingStyle.add? x CallingStyle.zeroOrMore) =
      some CallingStyle.zeroOrMore ∧
    (CallingStyle.add? CallingStyle.zeroOrOnce CallingStyle.zeroOrMore).bind
        (fun x => CallingStyle.add? x CallingStyle.once) =
      some CallingStyle.zeroOrMore ∧
    (CallingStyle.add? CallingStyle.zeroOrMore CallingStyle.once).bind
        (fun x => CallingStyle.add? x CallingStyle.zeroOrOnce) =
      some CallingStyle.zeroOrMore ∧
    (CallingStyle.add? CallingStyle.zeroOrMore CallingStyle.zeroOrOnce).bind
        (fun x => CallingStyle.add? x CallingStyle.once) =
      some CallingStyle.zeroOrMore) := by
  decide

/-- Claim C8: the join on `CallingStyle` is commutative and associative over
all pairs and triples of the four surfaced values; associativity is stated on
the `unreachable!()`-tracking `Option` so that both bracketings also agree on
whether the panic arm is hit (it never is). -/
theorem callingStyle_join_comm_assoc :
    ∀ a b c : CallingStyle,
      CallingStyle.add? a b = CallingStyle.add? b a ∧
      (CallingStyle.add? a b).bind (fun x => CallingStyle.add? x c) =
        (CallingStyle.add? b c).bind (fun y => CallingStyle.add? a y) := by
  intro a b c
  cases a <;> cases b <;> cases c <;> decide

/- ---------------------------------------------------------------- -/
/- Claims about the visitor (C3, C10)                               -/
/- ---------------------------------------------------------------- -/

/-- Claim C3: the spec's classifier scenarios expect `Some(Once)`,
`Some(ZeroOrOnce)` and `Some(ZeroOrMore)`, but every callback pops what it
pushed and `visit_expr_call` records nothing, so after the traversal
`result()` folds an empty stack: the code returns `None` in all three
scenarios (a caller directly calling the target, the call under an `if` with
no `else`, and the call under a `for` loop). -/
theorem classifier_returns_none_on_spec_scenarios :
    classify "caller" [RItem.itemFn "caller" (RExpr.call "target")] = none ∧
    classify "caller"
      [RItem.itemFn "caller" (RExpr.ifE (RExpr.path "cond") (RExpr.call "target"))] =
      none ∧
    classify "caller" [RItem.itemFn "caller" (RExpr.forE (RExpr.call "target"))] =
      none := by
  refine ⟨rfl, rfl, rfl⟩

/-- Claim C10: every visitor callback that pushes a context marker pops it
before returning, so each callback leaves the state stack exactly as it found
it; hence after a complete traversal of any source tree the stack is empty and
`result()` returns `None` for every input. -/
theorem visitor_stack_balanced (ref : String)
    (st : List CallingStyleVisitorState) (e : RExpr) (i : RItem)
    (items : List RItem) :
    visitExpr ref st e = st ∧ visitItem ref st i = st ∧
    visitItems ref st items = st ∧ classify ref items = none := by
  refine ⟨visitExpr_id ref e st, visitItem_id ref i st, visitItems_id ref items st, ?_⟩
  rw [classify, visitItems_id]
  rfl

/- ---------------------------------------------------------------- -/
/- Helper lemmas on the prepare retry loop                          -/
/- ---------------------------------------------------------------- -/

theorem prepareLoop_attempts_le (prep : Nat → PrepareResponse) :
    ∀ fuel count attempt v a,
      prepareLoop prep count attempt fuel = some (v, a) → a ≤ attempt + fuel := by
  intro fuel
  induction fuel with
  | zero =>
    intro count attempt v a h
    simp [prepareLoop] at h
  | succ fuel ih =>
    intro count attempt v a h
    rw [prepareLoop] at h
    cases hr : (prep attempt).result with
    | none =>
      rw [hr] at h
      by_cases hc : count > 5
      · simp [hc] at h
        omega
      · simp [hc] at h
        have := ih count (attempt + 1) v a h
        omega
    | some pv =>
      cases pv with
      | arr value =>
        rw [hr] at h
        by_cases hv : value = []
        · subst hv
          simp at h
          by_cases hc : count + 1 > 5
          · simp [hc] at h
            omega
          · simp [hc] at h
            have := ih (count + 1) (attempt + 1) v a h
            omega
        · simp [hv] at h
          omega
      | nonArray =>
        rw [hr] at h
        by_cases hc : count > 5
        · simp [hc] at h
          omega
        · simp [hc] at h
          have := ih count (attempt + 1) v a h
          omega

theorem prepareLoop_total_of_arr (prep : Nat → PrepareResponse)
    (h : ∀ n, ∃ v, (prep n).result = some (PrepValue.arr v)) :
    ∀ fuel count attempt, count ≤ 5 → 6 ≤ count + fuel →
      (prepareLoop prep count attempt fuel).isSome := by
  intro fuel
  induction fuel with
  | zero =>
    intro count attempt hle hfuel
    omega
  | succ fuel ih =>
    intro count attempt hle hfuel
    obtain ⟨v, hv⟩ := h attempt
    rw [prepareLoop, hv]
    by_cases hne : v = []
    · subst hne
      simp only [ne_eq, not_true_eq_false, if_false]
      by_cases hc : count + 1 > 5
      · simp [hc]
      · simp only [hc, if_false]
        exact ih (count + 1) attempt.succ (by omega) (by omega)
    · simp [hne]

/- ---------------------------------------------------------------- -/
/- Concrete fixtures used by witnesses and counterexamples          -/
/- ---------------------------------------------------------------- -/

/-- A concrete identifier under resolution. -/
def ident0 : Identifier := ⟨"target", "/tmp/a.rs", 1, 0⟩

/-- A concrete incoming-call record. -/
def call1 : IncomingCall := ⟨"caller", "/tmp/a.rs", 3, 4, [(5, 6)]⟩

/-- Server stub whose prepare response is always an empty array and whose
incoming-calls response is a protocol error. -/
def stubEmptyPrep : ServerStub :=
  ⟨fun _ => ⟨some (.arr [])⟩, ⟨some "boom", none⟩⟩

/-- Server stub whose prepare responses never carry a result (a protocol
error on every prepare request). -/
def stubPrepNoResult : ServerStub :=
  ⟨fun _ => ⟨none⟩, ⟨none, some (.ok [])⟩⟩

/-- Server stub that prepares successfully at once and answers the
incoming-calls request with one well-formed record. -/
def stubOk : ServerStub :=
  ⟨fun _ => ⟨some (.arr [()])⟩, ⟨none, some (.ok [call1])⟩⟩

/-- Server stub that prepares successfully at once and answers the
incoming-calls request with a protocol error. -/
def stubIncomingErr : ServerStub :=
  ⟨fun _ => ⟨some (.arr [()])⟩, ⟨some "err", none⟩⟩

/-- Server stub that prepares successfully at once and answers the
incoming-calls request with a result that fails to deserialize. -/
def stubMalformed : ServerStub :=
  ⟨fun _ => ⟨some (.arr [()])⟩, ⟨none, some .malformed⟩⟩

/- ---------------------------------------------------------------- -/
/- Claims about the resolver (C1, C4, C5, C6, C7, C9)               -/
/- ---------------------------------------------------------------- -/

/-- Claim C1 counterexample: against the stub whose prepare response is
always an empty list, the resolver still issues the incoming-calls request
(the prepare loop's broken-out `_response` is never consulted and the request
is sent unconditionally), contradicting "issues no incomingCalls request". -/
theorem resolve_issues_incoming_after_empty_prepare :
    (resolve [] ident0 stubEmptyPrep 10).issuedIncoming = true := by
  decide

/-- Claim C1 (amended): against a server stub whose prepare response is always
an empty list, resolve on an uncached identifier terminates after exactly 6
prepare attempts (1 initial + 5 retries), then still issues one incoming-calls
request; when the stub answers that request with a protocol error the run
returns an empty reference list and caches it. -/
theorem resolve_empty_prepare_six_attempts (stub : ServerStub)
    (ident : Identifier) (err : String)
    (hprep : ∀ n, stub.prepare n = ⟨some (.arr [])⟩)
    (herr : stub.incoming.error = some err) :
    resolve [] ident stub 6 =
      .ok [] (Cache.insert [] ident.canonical []) 6 true := by
  have hloop : prepareLoop stub.prepare 0 0 6 = some ([], 6) := by
    simp [prepareLoop, hprep]
  simp [resolve, Cache.lookup, hloop, herr]

/-- Witness for the amended claim C1 at the concrete stub. -/
theorem resolve_empty_prepare_six_attempts_witness :
    (∀ n, stubEmptyPrep.prepare n = ⟨some (.arr [])⟩) ∧
    stubEmptyPrep.incoming.error = some "boom" ∧
    resolve [] ident0 stubEmptyPrep 6 =
      .ok [] (Cache.insert [] ident0.canonical []) 6 true :=
  ⟨fun _ => rfl, rfl,
    resolve_empty_prepare_six_attempts stubEmptyPrep ident0 "boom"
      (fun _ => rfl) rfl⟩

/-- Claim C4: when the run reaches the incoming-calls phase and the server
answers it with a protocol-level error, resolve completes successfully with an
empty reference list, caches that empty list under the identifier's canonical
key, and surfaces no error. -/
theorem resolve_incoming_error_downgrades (cache : Cache) (ident : Identifier)
    (stub : ServerStub) (fuel : Nat) (v : List PrepItem) (a : Nat)
    (err : String)
    (hmiss : Cache.lookup cache ident.canonical = none)
    (hloop : prepareLoop stub.prepare 0 0 fuel = some (v, a))
    (herr : stub.incoming.error = some err) :
    resolve cache ident stub fuel =
      .ok [] (Cache.insert cache ident.canonical []) a true ∧
    Cache.lookup (Cache.insert cache ident.canonical []) ident.canonical =
      some [] := by
  constructor
  · simp [resolve, hmiss, hloop, herr]
  · simp [Cache.insert, Cache.lookup]

/-- Witness for claim C4 at a concrete stub. -/
theorem resolve_incoming_error_downgrades_witness :
    Cache.lookup [] ident0.canonical = none ∧
    prepareLoop stubIncomingErr.prepare 0 0 1 = some ([()], 1) ∧
    stubIncomingErr.incoming.error = some "err" ∧
    (resolve [] ident0 stubIncomingErr 1 =
      .ok [] (Cache.insert [] ident0.canonical []) 1 true ∧
    Cache.lookup (Cache.insert [] ident0.canonical []) ident0.canonical =
      some []) :=
  ⟨rfl, rfl, rfl,
    resolve_incoming_error_downgrades [] ident0 stubIncomingErr 1 [()] 1 "err"
      rfl rfl rfl⟩

/-- Claim C5: a cache hit returns the cached reference list with zero server
requests (no prepare attempt, no incoming-calls request) and leaves the cache
unchanged; a second resolution of the same identifier — whatever the server
then does — returns the same result, again with zero requests. -/
theorem resolve_cache_hit_no_requests (cache : Cache) (ident : Identifier)
    (stub stub2 : ServerStub) (fuel fuel2 : Nat)
    (refs : List IdentifierReference)
    (hhit : Cache.lookup cache ident.canonical = some refs) :
    resolve cache ident stub fuel = .ok refs cache 0 false ∧
    resolve cache ident stub2 fuel2 = .ok refs cache 0 false := by
  constructor <;> simp [resolve, hhit]

/-- Witness for claim C5 at a concrete populated cache. -/
theorem resolve_cache_hit_no_requests_witness :
    Cache.lookup [(ident0.canonical, [call1.toRef])] ident0.canonical =
      some [call1.toRef] ∧
    (resolve [(ident0.canonical, [call1.toRef])] ident0 stubOk 1 =
      .ok [call1.toRef] [(ident0.canonical, [call1.toRef])] 0 false ∧
    resolve [(ident0.canonical, [call1.toRef])] ident0 stubMalformed 0 =
      .ok [call1.toRef] [(ident0.canonical, [call1.toRef])] 0 false) :=
  ⟨by decide,
    resolve_cache_hit_no_requests [(ident0.canonical, [call1.toRef])] ident0
      stubOk stubMalformed 1 0 [call1.toRef] (by decide)⟩

/-- Claim C6: whenever resolve computes a fresh (non-cache-hit) result and
completes, the returned reference list has been inserted under the
identifier's canonical key, so it is afterwards retrievable by a direct cache
lookup with that key. -/
theorem resolve_fresh_result_cached (cache : Cache) (ident : Identifier)
    (stub : ServerStub) (fuel : Nat) (links : List IdentifierReference)
    (cache2 : Cache) (a : Nat) (issued : Bool)
    (hmiss : Cache.lookup cache ident.canonical = none)
    (hok : resolve cache ident stub fuel = .ok links cache2 a issued) :
    Cache.lookup cache2 ident.canonical = some links := by
  unfold resolve at hok
  rw [hmiss] at hok
  cases hploop : prepareLoop stub.prepare 0 0 fuel with
  | none =>
    rw [hploop] at hok
    simp at hok
  | some pr =>
    rw [hploop] at hok
    obtain ⟨pv, attempts⟩ := pr
    cases herr : stub.incoming.error with
    | some e =>
      rw [herr] at hok
      simp only [ResolveResult.ok.injEq] at hok
      obtain ⟨h1, h2, h3, h4⟩ := hok
      subst h1
      subst h2
      simp [Cache.insert, Cache.lookup]
    | none =>
      rw [herr] at hok
      cases hres : stub.incoming.result with
      | none =>
        rw [hres] at hok
        simp at hok
      | some iv =>
        rw [hres] at hok
        cases iv with
        | malformed =>
          simp at hok
        | ok calls =>
          simp only [ResolveResult.ok.injEq] at hok
          obtain ⟨h1, h2, h3, h4⟩ := hok
          subst h1
          subst h2
          simp [Cache.insert, Cache.lookup]

/-- Witness for claim C6 at a concrete fresh resolution. -/
theorem resolve_fresh_result_cached_witness :
    Cache.lookup [] ident0.canonical = none ∧
    resolve [] ident0 stubOk 1 =
      .ok [call1.toRef] [(ident0.canonical, [call1.toRef])] 1 true ∧
    Cache.lookup [(ident0.canonical, [call1.toRef])] ident0.canonical =
      some [call1.toRef] :=
  ⟨rfl, by decide,
    resolve_fresh_result_cached [] ident0 stubOk 1 [call1.toRef]
      [(ident0.canonical, [call1.toRef])] 1 true rfl (by decide)⟩

/-- Claim C7 counterexample: against a server whose prepare responses carry no
result (protocol errors), the retry counter never advances, so the loop is
still running after 20 attempts — the claimed 6-attempt bound does not hold
for every possible sequence of responses. -/
theorem prepare_loop_still_running_after_twenty_errors :
    prepareLoop stubPrepNoResult.prepare 0 0 20 = none ∧
    resolve [] ident0 stubPrepNoResult 20 = ResolveResult.outOfFuel := by
  constructor
  · decide
  · decide

/-- Claim C7 (amended): the prepare-phase retry loop terminates after at most
6 attempts whenever every response carries an array result (empty or not);
responses carrying an error, no result, or a non-array result do not advance
the retry counter, so under such responses the loop keeps retrying
indefinitely. -/
theorem prepare_loop_terminates_on_array_responses
    (prep : Nat → PrepareResponse)
    (h : ∀ n, ∃ v, (prep n).result = some (PrepValue.arr v)) :
    ∃ v a, prepareLoop prep 0 0 6 = some (v, a) ∧ a ≤ 6 := by
  have hs := prepareLoop_total_of_arr prep h 6 0 0 (by omega) (by omega)
  obtain ⟨⟨v, a⟩, hva⟩ := Option.isSome_iff_exists.mp hs
  refine ⟨v, a, hva, ?_⟩
  have := prepareLoop_attempts_le prep 6 0 0 v a hva
  omega

/-- Witness for the amended claim C7 at the always-empty-array stub. -/
theorem prepare_loop_terminates_witness :
    (∀ n, ∃ v, (stubEmptyPrep.prepare n).result = some (PrepValue.arr v)) ∧
    ∃ v a, prepareLoop stubEmptyPrep.prepare 0 0 6 = some (v, a) ∧ a ≤ 6 :=
  ⟨fun _ => ⟨[], rfl⟩,
    prepare_loop_terminates_on_array_responses stubEmptyPrep.prepare
      (fun _ => ⟨[], rfl⟩)⟩

/-- Claim C9: when the incoming-calls response carries no error but its result
fails to deserialize into the expected list of incoming-call records, the
current resolution aborts (the `unwrap` panics): no value is returned and the
cache is left exactly as it was. -/
theorem resolve_malformed_response_aborts (cache : Cache) (ident : Identifier)
    (stub : ServerStub) (fuel : Nat) (v : List PrepItem) (a : Nat)
    (hmiss : Cache.lookup cache ident.canonical = none)
    (hloop : prepareLoop stub.prepare 0 0 fuel = some (v, a))
    (herr : stub.incoming.error = none)
    (hmal : stub.incoming.result = some IncomingValue.malformed) :
    resolve cache ident stub fuel = .panicked cache := by
  simp [resolve, hmiss, hloop, herr, hmal]

/-- Witness for claim C9 at a concrete malformed-response stub. -/
theorem resolve_malformed_response_aborts_witness :
    Cache.lookup [] ident0.canonical = none ∧
    prepareLoop stubMalformed.prepare 0 0 1 = some ([()], 1) ∧
    stubMalformed.incoming.error = none ∧
    stubMalformed.incoming.result = some IncomingValue.malformed ∧
    resolve [] ident0 stubMalformed 1 = .panicked [] :=
  ⟨rfl, rfl, rfl, rfl,
    resolve_malformed_response_aborts [] ident0 stubMalformed 1 [()] 1
      rfl rfl rfl rfl⟩
